import Mathlib

/-!
Shallow embedding of `kopf/on.py` — the declarative registration layer of the
kopf operator framework — together with the parts of its collaborators
(identifier deriver, field-path parser, descriptor records, registry
container, ambient execution context) that the registration entry points use.
The entry points themselves are translated line by line from `src/kopf/on.py`;
the collaborator modules (`kopf.reactor.registries`, `kopf.reactor.handlers`,
`kopf.reactor.handling`, `kopf.structs.dicts`) are not part of the source
tree, so their definitions are modelled from the specification, each marked
`Modelled from the spec:` in its doc comment.

Python's in-place mutation is rendered as explicit state passing: every entry
point receives the registry it targets and returns the updated registry
together with the (unchanged) callback it was given.  Numeric configuration
values (timeouts, retry counts, back-off delays) are carried as `Nat`: the
layer only stores them, never computes with them.
-/

namespace Kopf

/-- An opaque user callback: the registration layer never inspects it beyond
its declared name (used for deriving default handler ids). -/
structure Fn where
  name : String
deriving DecidableEq, Repr

/-- A resource-type key: (group, version, plural).  Two keys are equal iff all
three components are equal, case-sensitively (`resources.Resource`). -/
structure Resource where
  group : String
  version : String
  plural : String
deriving DecidableEq, Repr

/-- The enum `errors_.ErrorsMode`: how invocation failures are treated downstream. -/
inductive ErrorsMode where
  | ignored
  | temporary
  | permanent
deriving DecidableEq, Repr

/-- The `causation.Reason` values used by the registration layer. -/
inductive Reason where
  | create
  | update
  | delete
deriving DecidableEq, Repr

/-- The enum `causation.Activity`: the process-lifecycle event kinds. -/
inductive Activity where
  | startup
  | cleanup
  | authentication
  | probe
deriving DecidableEq, Repr

/-- A label/annotation filter mapping (`filters.MetaFilter`): keys mapped to
either a concrete value or Python's `None` (the deprecated "must be present"
convention), rendered here as `Option String` with `none` for `None`. -/
abbrev MetaFilter := List (String × Option String)

/-- A field specification as accepted by `@kopf.on.field`
(`dicts.FieldSpec`): absent, a single dotted string, or a pre-split list. -/
inductive FieldSpec where
  | nothing
  | str (s : String)
  | list (l : List String)
deriving DecidableEq, Repr

/-- Modelled from the spec: `dicts.parse_field` of the `kopf.structs.dicts`
module (absent from src/).  "Field-path format: an ordered sequence of
nested-mapping/sequence access segments, accepted as either a pre-split
sequence or a single dotted string to be split on `.`"; an absent field
yields the empty path. -/
def parse_field : FieldSpec → List String
  | .nothing => []
  | .str s => (s.toList.splitOn '.').map (fun cs => String.mk cs)
  | .list l => l

/-- Modelled from the spec: `registries.generate_id` of the
`kopf.reactor.registries` module (absent from src/), the identifier deriver
of spec §4.1: the base is the explicit id when given, else the callback's
declared name; a supplied non-empty suffix is appended as `base ++ "/" ++
suffix`; a supplied non-empty prefix is prepended as `pfx ++ "/" ++ base`. -/
def generate_id (fn : Fn) (id : Option String) (pfx : Option String)
    (sfx : Option String) : String :=
  let base := match id with
    | some i => i
    | none => fn.name
  let withSfx := match sfx with
    | some s => if s = "" then base else base ++ "/" ++ s
    | none => base
  match pfx with
  | some p => if p = "" then withSfx else p ++ "/" ++ withSfx
  | none => withSfx

/-- Modelled from the spec: `handlers.ActivityHandler` (module absent from
src/): the immutable descriptor for process-lifecycle activities.  The
deprecated `cooldown` is stored alongside `backoff`; the effective delay
(backoff taking precedence) is `ActivityHandler.effective_backoff`. -/
structure ActivityHandler where
  fn : Fn
  id : String
  errors : Option ErrorsMode
  timeout : Option Nat
  retries : Option Nat
  backoff : Option Nat
  cooldown : Option Nat
  activity : Activity
deriving DecidableEq, Repr

/-- Modelled from the spec: `handlers.ResourceWatchingHandler` (module absent
from src/): the descriptor for raw watch-event spectators. -/
structure ResourceWatchingHandler where
  fn : Fn
  id : String
  errors : Option ErrorsMode
  timeout : Option Nat
  retries : Option Nat
  backoff : Option Nat
  cooldown : Option Nat
  labels : Option MetaFilter
  annotations : Option MetaFilter
  when_ : Option Fn
deriving DecidableEq, Repr

/-- Modelled from the spec: `handlers.ResourceChangingHandler` (module absent
from src/): the descriptor for resource-changing causes. -/
structure ResourceChangingHandler where
  fn : Fn
  id : String
  field : Option (List String)
  errors : Option ErrorsMode
  timeout : Option Nat
  retries : Option Nat
  backoff : Option Nat
  cooldown : Option Nat
  labels : Option MetaFilter
  annotations : Option MetaFilter
  when_ : Option Fn
  initial : Option Bool
  deleted : Option Bool
  requires_finalizer : Option Bool
  reason : Option Reason
deriving DecidableEq, Repr

/-- Modelled from the spec: "backoff and the deprecated cooldown ... both map
to the same effective value, backoff taking precedence" (spec §3). -/
def ActivityHandler.effective_backoff (h : ActivityHandler) : Option Nat :=
  h.backoff.orElse (fun _ => h.cooldown)

/-- Modelled from the spec: the effective retry delay of a resource-changing
descriptor — `backoff` when set, else the deprecated `cooldown`. -/
def ResourceChangingHandler.effective_backoff (h : ResourceChangingHandler) :
    Option Nat :=
  h.backoff.orElse (fun _ => h.cooldown)

/-- Modelled from the spec: `registries.OperatorRegistry` (module absent from
src/): a flat insertion-ordered activity list plus two indices from
resource-type key to insertion-ordered descriptor lists; a key not yet
inserted maps to the empty list (spec §3, §4.3). -/
structure OperatorRegistry where
  activity_handlers : List ActivityHandler
  resource_watching_handlers : Resource → List ResourceWatchingHandler
  resource_changing_handlers : Resource → List ResourceChangingHandler

/-- A freshly constructed, empty registry. -/
def OperatorRegistry.empty : OperatorRegistry where
  activity_handlers := []
  resource_watching_handlers := fun _ => []
  resource_changing_handlers := fun _ => []

/-- Append an activity descriptor (`registry.activity_handlers.append`). -/
def OperatorRegistry.addActivity (reg : OperatorRegistry)
    (h : ActivityHandler) : OperatorRegistry :=
  { reg with activity_handlers := reg.activity_handlers ++ [h] }

/-- Append a watching descriptor under its key
(`registry.resource_watching_handlers[resource].append`). -/
def OperatorRegistry.addWatching (reg : OperatorRegistry) (k : Resource)
    (h : ResourceWatchingHandler) : OperatorRegistry :=
  { reg with resource_watching_handlers := fun r =>
      if r = k then reg.resource_watching_handlers r ++ [h]
      else reg.resource_watching_handlers r }

/-- Append a changing descriptor under its key
(`registry.resource_changing_handlers[resource].append`). -/
def OperatorRegistry.addChanging (reg : OperatorRegistry) (k : Resource)
    (h : ResourceChangingHandler) : OperatorRegistry :=
  { reg with resource_changing_handlers := fun r =>
      if r = k then reg.resource_changing_handlers r ++ [h]
      else reg.resource_changing_handlers r }

/-- The helper `_warn_deprecated_filters` emits one `DeprecationWarning` per entry whose
value is `None` in the labels mapping and per such entry in the annotations
mapping, and never raises; this function counts the warnings emitted by one
call (warnings are the function's only effect). -/
def warn_deprecated_filters_count (labels : Option MetaFilter)
    (annotations : Option MetaFilter) : Nat :=
  (match labels with
    | none => 0
    | some m => (m.filter (fun kv => kv.2 = none)).length) +
  (match annotations with
    | none => 0
    | some m => (m.filter (fun kv => kv.2 = none)).length)

/-!
The static registration entry points of `src/kopf/on.py`.  Each Python
decorator factory `x(**options)` returning `decorator(fn)` is rendered as a
function of the options and the callback.  The line
`real_registry = registry if registry is not None else
registries.get_default_registry()` is rendered by passing the optional
explicit `registry` argument together with the process-wide default registry
`defaultReg` and resolving between them; the updated resolved registry is
returned.  The `handler = handlers.XHandler(...)` construction of each entry
point is split into its own `x_handler` definition.
-/

/-- The descriptor constructed by `startup` (on.py lines 46-50). -/
def startup_handler (id : Option String) (errors : Option ErrorsMode)
    (timeout : Option Nat) (retries : Option Nat) (backoff : Option Nat)
    (cooldown : Option Nat) (fn : Fn) : ActivityHandler :=
  { fn := fn, id := generate_id fn id none none
    errors := errors, timeout := timeout, retries := retries
    backoff := backoff, cooldown := cooldown
    activity := Activity.startup }

/-- The decorator `@kopf.on.startup()` (on.py lines 33-53). -/
def startup (id : Option String) (errors : Option ErrorsMode)
    (timeout : Option Nat) (retries : Option Nat) (backoff : Option Nat)
    (cooldown : Option Nat) (registry : Option OperatorRegistry)
    (defaultReg : OperatorRegistry) (fn : Fn) : Fn × OperatorRegistry :=
  let real_registry := registry.getD defaultReg
  (fn, real_registry.addActivity
    (startup_handler id errors timeout retries backoff cooldown fn))

/-- The descriptor constructed by `cleanup` (on.py lines 69-73). -/
def cleanup_handler (id : Option String) (errors : Option ErrorsMode)
    (timeout : Option Nat) (retries : Option Nat) (backoff : Option Nat)
    (cooldown : Option Nat) (fn : Fn) : ActivityHandler :=
  { fn := fn, id := generate_id fn id none none
    errors := errors, timeout := timeout, retries := retries
    backoff := backoff, cooldown := cooldown
    activity := Activity.cleanup }

/-- The decorator `@kopf.on.cleanup()` (on.py lines 56-76). -/
def cleanup (id : Option String) (errors : Option ErrorsMode)
    (timeout : Option Nat) (retries : Option Nat) (backoff : Option Nat)
    (cooldown : Option Nat) (registry : Option OperatorRegistry)
    (defaultReg : OperatorRegistry) (fn : Fn) : Fn × OperatorRegistry :=
  let real_registry := registry.getD defaultReg
  (fn, real_registry.addActivity
    (cleanup_handler id errors timeout retries backoff cooldown fn))

/-- The descriptor constructed by `login` (on.py lines 93-97). -/
def login_handler (id : Option String) (errors : Option ErrorsMode)
    (timeout : Option Nat) (retries : Option Nat) (backoff : Option Nat)
    (cooldown : Option Nat) (fn : Fn) : ActivityHandler :=
  { fn := fn, id := generate_id fn id none none
    errors := errors, timeout := timeout, retries := retries
    backoff := backoff, cooldown := cooldown
    activity := Activity.authentication }

/-- The decorator `@kopf.on.login()` (on.py lines 79-100). -/
def login (id : Option String) (errors : Option ErrorsMode)
    (timeout : Option Nat) (retries : Option Nat) (backoff : Option Nat)
    (cooldown : Option Nat) (registry : Option OperatorRegistry)
    (defaultReg : OperatorRegistry) (fn : Fn) : Fn × OperatorRegistry :=
  let real_registry := registry.getD defaultReg
  (fn, real_registry.addActivity
    (login_handler id errors timeout retries backoff cooldown fn))

/-- The descriptor constructed by `probe` (on.py lines 117-121). -/
def probe_handler (id : Option String) (errors : Option ErrorsMode)
    (timeout : Option Nat) (retries : Option Nat) (backoff : Option Nat)
    (cooldown : Option Nat) (fn : Fn) : ActivityHandler :=
  { fn := fn, id := generate_id fn id none none
    errors := errors, timeout := timeout, retries := retries
    backoff := backoff, cooldown := cooldown
    activity := Activity.probe }

/-- The decorator `@kopf.on.probe()` (on.py lines 103-124). -/
def probe (id : Option String) (errors : Option ErrorsMode)
    (timeout : Option Nat) (retries : Option Nat) (backoff : Option Nat)
    (cooldown : Option Nat) (registry : Option OperatorRegistry)
    (defaultReg : OperatorRegistry) (fn : Fn) : Fn × OperatorRegistry :=
  let real_registry := registry.getD defaultReg
  (fn, real_registry.addActivity
    (probe_handler id errors timeout retries backoff cooldown fn))

/-- The descriptor constructed by `resume` (on.py lines 148-154):
`initial=True`, `deleted` passed through, no field, no reason. -/
def resume_handler (id : Option String) (errors : Option ErrorsMode)
    (timeout : Option Nat) (retries : Option Nat) (backoff : Option Nat)
    (cooldown : Option Nat) (deleted : Option Bool)
    (labels : Option MetaFilter) (annotations : Option MetaFilter)
    (when_ : Option Fn) (fn : Fn) : ResourceChangingHandler :=
  { fn := fn, id := generate_id fn id none none, field := none
    errors := errors, timeout := timeout, retries := retries
    backoff := backoff, cooldown := cooldown
    labels := labels, annotations := annotations, when_ := when_
    initial := some true, deleted := deleted, requires_finalizer := none
    reason := none }

/-- The decorator `@kopf.on.resume()` (on.py lines 127-157). -/
def resume (group : String) (version : String) (plural : String)
    (id : Option String) (errors : Option ErrorsMode) (timeout : Option Nat)
    (retries : Option Nat) (backoff : Option Nat) (cooldown : Option Nat)
    (registry : Option OperatorRegistry) (deleted : Option Bool)
    (labels : Option MetaFilter) (annotations : Option MetaFilter)
    (when_ : Option Fn) (defaultReg : OperatorRegistry) (fn : Fn) :
    Fn × OperatorRegistry :=
  let real_registry := registry.getD defaultReg
  let real_resource : Resource := ⟨group, version, plural⟩
  (fn, real_registry.addChanging real_resource
    (resume_handler id errors timeout retries backoff cooldown deleted
      labels annotations when_ fn))

/-- The descriptor constructed by `create` (on.py lines 180-186):
`reason=CREATE`, no field, no initial/deleted/finalizer flags. -/
def create_handler (id : Option String) (errors : Option ErrorsMode)
    (timeout : Option Nat) (retries : Option Nat) (backoff : Option Nat)
    (cooldown : Option Nat) (labels : Option MetaFilter)
    (annotations : Option MetaFilter) (when_ : Option Fn) (fn : Fn) :
    ResourceChangingHandler :=
  { fn := fn, id := generate_id fn id none none, field := none
    errors := errors, timeout := timeout, retries := retries
    backoff := backoff, cooldown := cooldown
    labels := labels, annotations := annotations, when_ := when_
    initial := none, deleted := none, requires_finalizer := none
    reason := some Reason.create }

/-- The decorator `@kopf.on.create()` (on.py lines 160-189). -/
def create (group : String) (version : String) (plural : String)
    (id : Option String) (errors : Option ErrorsMode) (timeout : Option Nat)
    (retries : Option Nat) (backoff : Option Nat) (cooldown : Option Nat)
    (registry : Option OperatorRegistry) (labels : Option MetaFilter)
    (annotations : Option MetaFilter) (when_ : Option Fn)
    (defaultReg : OperatorRegistry) (fn : Fn) : Fn × OperatorRegistry :=
  let real_registry := registry.getD defaultReg
  let real_resource : Resource := ⟨group, version, plural⟩
  (fn, real_registry.addChanging real_resource
    (create_handler id errors timeout retries backoff cooldown
      labels annotations when_ fn))

/-- The descriptor constructed by `update` (on.py lines 212-218):
`reason=UPDATE`. -/
def update_handler (id : Option String) (errors : Option ErrorsMode)
    (timeout : Option Nat) (retries : Option Nat) (backoff : Option Nat)
    (cooldown : Option Nat) (labels : Option MetaFilter)
    (annotations : Option MetaFilter) (when_ : Option Fn) (fn : Fn) :
    ResourceChangingHandler :=
  { fn := fn, id := generate_id fn id none none, field := none
    errors := errors, timeout := timeout, retries := retries
    backoff := backoff, cooldown := cooldown
    labels := labels, annotations := annotations, when_ := when_
    initial := none, deleted := none, requires_finalizer := none
    reason := some Reason.update }

/-- The decorator `@kopf.on.update()` (on.py lines 192-221). -/
def update (group : String) (version : String) (plural : String)
    (id : Option String) (errors : Option ErrorsMode) (timeout : Option Nat)
    (retries : Option Nat) (backoff : Option Nat) (cooldown : Option Nat)
    (registry : Option OperatorRegistry) (labels : Option MetaFilter)
    (annotations : Option MetaFilter) (when_ : Option Fn)
    (defaultReg : OperatorRegistry) (fn : Fn) : Fn × OperatorRegistry :=
  let real_registry := registry.getD defaultReg
  let real_resource : Resource := ⟨group, version, plural⟩
  (fn, real_registry.addChanging real_resource
    (update_handler id errors timeout retries backoff cooldown
      labels annotations when_ fn))

/-- Python truthiness of an `Optional[bool]` value: `None` is falsy. -/
def pyTruthy : Option Bool → Bool
  | some b => b
  | none => false

/-- The descriptor constructed by `delete` (on.py lines 245-251):
`reason=DELETE` and `requires_finalizer=bool(not optional)`. -/
def delete_handler (id : Option String) (errors : Option ErrorsMode)
    (timeout : Option Nat) (retries : Option Nat) (backoff : Option Nat)
    (cooldown : Option Nat) (optional : Option Bool)
    (labels : Option MetaFilter) (annotations : Option MetaFilter)
    (when_ : Option Fn) (fn : Fn) : ResourceChangingHandler :=
  { fn := fn, id := generate_id fn id none none, field := none
    errors := errors, timeout := timeout, retries := retries
    backoff := backoff, cooldown := cooldown
    labels := labels, annotations := annotations, when_ := when_
    initial := none, deleted := none
    requires_finalizer := some (! pyTruthy optional)
    reason := some Reason.delete }

/-- The decorator `@kopf.on.delete()` (on.py lines 224-254). -/
def delete (group : String) (version : String) (plural : String)
    (id : Option String) (errors : Option ErrorsMode) (timeout : Option Nat)
    (retries : Option Nat) (backoff : Option Nat) (cooldown : Option Nat)
    (registry : Option OperatorRegistry) (optional : Option Bool)
    (labels : Option MetaFilter) (annotations : Option MetaFilter)
    (when_ : Option Fn) (defaultReg : OperatorRegistry) (fn : Fn) :
    Fn × OperatorRegistry :=
  let real_registry := registry.getD defaultReg
  let real_resource : Resource := ⟨group, version, plural⟩
  (fn, real_registry.addChanging real_resource
    (delete_handler id errors timeout retries backoff cooldown optional
      labels annotations when_ fn))

/-- The descriptor constructed by `field` (on.py lines 277-285):
`real_field = dicts.parse_field(field) or None` (an empty parsed path is
stored as `none`, not as the empty tuple), id suffixed with the dotted path,
no reason. -/
def field_handler (fld : FieldSpec) (id : Option String)
    (errors : Option ErrorsMode) (timeout : Option Nat) (retries : Option Nat)
    (backoff : Option Nat) (cooldown : Option Nat)
    (labels : Option MetaFilter) (annotations : Option MetaFilter)
    (when_ : Option Fn) (fn : Fn) : ResourceChangingHandler :=
  let real_field : Option (List String) := match parse_field fld with
    | [] => none
    | l => some l
  let real_id := generate_id fn id none
    (some (String.intercalate "." (real_field.getD [])))
  { fn := fn, id := real_id, field := real_field
    errors := errors, timeout := timeout, retries := retries
    backoff := backoff, cooldown := cooldown
    labels := labels, annotations := annotations, when_ := when_
    initial := none, deleted := none, requires_finalizer := none
    reason := none }

/-- The decorator `@kopf.on.field()` (on.py lines 257-288). -/
def field (group : String) (version : String) (plural : String)
    (fld : FieldSpec) (id : Option String) (errors : Option ErrorsMode)
    (timeout : Option Nat) (retries : Option Nat) (backoff : Option Nat)
    (cooldown : Option Nat) (registry : Option OperatorRegistry)
    (labels : Option MetaFilter) (annotations : Option MetaFilter)
    (when_ : Option Fn) (defaultReg : OperatorRegistry) (fn : Fn) :
    Fn × OperatorRegistry :=
  let real_registry := registry.getD defaultReg
  let real_resource : Resource := ⟨group, version, plural⟩
  (fn, real_registry.addChanging real_resource
    (field_handler fld id errors timeout retries backoff cooldown
      labels annotations when_ fn))

/-- The descriptor constructed by `event` (on.py lines 306-310): all of
errors/timeout/retries/backoff/cooldown are passed as `None`. -/
def event_handler (id : Option String) (labels : Option MetaFilter)
    (annotations : Option MetaFilter) (when_ : Option Fn) (fn : Fn) :
    ResourceWatchingHandler :=
  { fn := fn, id := generate_id fn id none none
    errors := none, timeout := none, retries := none
    backoff := none, cooldown := none
    labels := labels, annotations := annotations, when_ := when_ }

/-- The decorator `@kopf.on.event()` (on.py lines 291-313): appends to the
resource-watching index. -/
def event (group : String) (version : String) (plural : String)
    (id : Option String) (registry : Option OperatorRegistry)
    (labels : Option MetaFilter) (annotations : Option MetaFilter)
    (when_ : Option Fn) (defaultReg : OperatorRegistry) (fn : Fn) :
    Fn × OperatorRegistry :=
  let real_registry := registry.getD defaultReg
  let real_resource : Resource := ⟨group, version, plural⟩
  (fn, real_registry.addWatching real_resource
    (event_handler id labels annotations when_ fn))

/-- Modelled from the spec: the ambient execution context exposed by the
`kopf.reactor.handling` module (absent from src/): "the descriptor currently
being executed (or none, if called outside invocation), and a current dynamic
sub-registry — an ordered list into which dynamically produced descriptors
are appended instead of the global registry" (spec §3).  Each component is a
context variable that may be unset. -/
structure ExecContext where
  handler_var : Option ResourceChangingHandler
  subregistry_var : Option (List ResourceChangingHandler)

/-- Modelled from the spec: reading a context variable
(`handling.handler_var.get()` / `handling.subregistry_var.get()`) outside any
execution context fails fast: "invoking the dynamic registration call outside
any execution context (no current descriptor, no sub-registry) is a caller
error; implementations should fail fast with a clear diagnostic" (spec §4.4).
An unset variable raises `LookupError`. -/
def cvGet {α : Type} : Option α → Except String α
  | some a => Except.ok a
  | none => Except.error "LookupError"

/-- The descriptor constructed by `this` (on.py lines 366-372): id derived
with the parent descriptor's id as prefix, no field, no reason. -/
def this_handler (parentId : String) (id : Option String)
    (errors : Option ErrorsMode) (timeout : Option Nat)
    (retries : Option Nat) (backoff : Option Nat) (cooldown : Option Nat)
    (labels : Option MetaFilter) (annotations : Option MetaFilter)
    (when_ : Option Fn) (fn : Fn) : ResourceChangingHandler :=
  { fn := fn, id := generate_id fn id (some parentId) none, field := none
    errors := errors, timeout := timeout, retries := retries
    backoff := backoff, cooldown := cooldown
    labels := labels, annotations := annotations, when_ := when_
    initial := none, deleted := none, requires_finalizer := none
    reason := none }

/-- The decorator `@kopf.on.this()` (on.py lines 318-375): reads the currently executed
descriptor from the context (fails if unset), resolves the target
sub-registry (the explicit `registry` argument, else the ambient sub-registry
— fails if that too is unset), constructs the descriptor with the parent's id
as prefix, and appends it to the target.  On success the result is the
original callback, the constructed descriptor, and the target sub-registry
after the append. -/
def this (id : Option String) (errors : Option ErrorsMode)
    (timeout : Option Nat) (retries : Option Nat) (backoff : Option Nat)
    (cooldown : Option Nat)
    (registry : Option (List ResourceChangingHandler))
    (labels : Option MetaFilter) (annotations : Option MetaFilter)
    (when_ : Option Fn) (ctx : ExecContext) (fn : Fn) :
    Except String
      (Fn × ResourceChangingHandler × List ResourceChangingHandler) := do
  let parent_handler ← cvGet ctx.handler_var
  let real_registry ← match registry with
    | some r => Except.ok r
    | none => cvGet ctx.subregistry_var
  let handler := this_handler parent_handler.id id errors timeout retries
    backoff cooldown labels annotations when_ fn
  Except.ok (fn, handler, real_registry ++ [handler])

/-- The function `kopf.register()` (on.py lines 378-421): builds the `this(...)` decorator
with the same options and applies it to `fn`. -/
def register (fn : Fn) (id : Option String) (errors : Option ErrorsMode)
    (timeout : Option Nat) (retries : Option Nat) (backoff : Option Nat)
    (cooldown : Option Nat)
    (registry : Option (List ResourceChangingHandler))
    (labels : Option MetaFilter) (annotations : Option MetaFilter)
    (when_ : Option Fn) (ctx : ExecContext) :
    Except String
      (Fn × ResourceChangingHandler × List ResourceChangingHandler) :=
  this id errors timeout retries backoff cooldown registry labels
    annotations when_ ctx fn

/-!
Sequences of static registration calls against one target registry, used to
state the ordering invariant: a call record carries the full argument list of
one entry-point invocation (with no explicit `registry` argument, so the
threaded registry is the resolved target). -/

/-- One static registration call with its full argument list. -/
inductive RegCall where
  | startupC (id : Option String) (errors : Option ErrorsMode)
      (timeout retries backoff cooldown : Option Nat) (fn : Fn)
  | cleanupC (id : Option String) (errors : Option ErrorsMode)
      (timeout retries backoff cooldown : Option Nat) (fn : Fn)
  | loginC (id : Option String) (errors : Option ErrorsMode)
      (timeout retries backoff cooldown : Option Nat) (fn : Fn)
  | probeC (id : Option String) (errors : Option ErrorsMode)
      (timeout retries backoff cooldown : Option Nat) (fn : Fn)
  | resumeC (group version plural : String) (id : Option String)
      (errors : Option ErrorsMode) (timeout retries backoff cooldown : Option Nat)
      (deleted : Option Bool) (labels annotations : Option MetaFilter)
      (when_ : Option Fn) (fn : Fn)
  | createC (group version plural : String) (id : Option String)
      (errors : Option ErrorsMode) (timeout retries backoff cooldown : Option Nat)
      (labels annotations : Option MetaFilter) (when_ : Option Fn) (fn : Fn)
  | updateC (group version plural : String) (id : Option String)
      (errors : Option ErrorsMode) (timeout retries backoff cooldown : Option Nat)
      (labels annotations : Option MetaFilter) (when_ : Option Fn) (fn : Fn)
  | deleteC (group version plural : String) (id : Option String)
      (errors : Option ErrorsMode) (timeout retries backoff cooldown : Option Nat)
      (optional : Option Bool) (labels annotations : Option MetaFilter)
      (when_ : Option Fn) (fn : Fn)
  | fieldC (group version plural : String) (fld : FieldSpec)
      (id : Option String) (errors : Option ErrorsMode)
      (timeout retries backoff cooldown : Option Nat)
      (labels annotations : Option MetaFilter) (when_ : Option Fn) (fn : Fn)
  | eventC (group version plural : String) (id : Option String)
      (labels annotations : Option MetaFilter) (when_ : Option Fn) (fn : Fn)

/-- Run one registration call against the registry (as the resolved target). -/
def applyCall (reg : OperatorRegistry) : RegCall → OperatorRegistry
  | .startupC id errors t r b c fn => (startup id errors t r b c none reg fn).2
  | .cleanupC id errors t r b c fn => (cleanup id errors t r b c none reg fn).2
  | .loginC id errors t r b c fn => (login id errors t r b c none reg fn).2
  | .probeC id errors t r b c fn => (probe id errors t r b c none reg fn).2
  | .resumeC g v p id errors t r b c d lab ann w fn =>
      (resume g v p id errors t r b c none d lab ann w reg fn).2
  | .createC g v p id errors t r b c lab ann w fn =>
      (create g v p id errors t r b c none lab ann w reg fn).2
  | .updateC g v p id errors t r b c lab ann w fn =>
      (update g v p id errors t r b c none lab ann w reg fn).2
  | .deleteC g v p id errors t r b c o lab ann w fn =>
      (delete g v p id errors t r b c none o lab ann w reg fn).2
  | .fieldC g v p fld id errors t r b c lab ann w fn =>
      (field g v p fld id errors t r b c none lab ann w reg fn).2
  | .eventC g v p id lab ann w fn => (event g v p id none lab ann w reg fn).2

/-- Run a sequence of registration calls, threading the registry through. -/
def applyCalls (calls : List RegCall) (reg : OperatorRegistry) :
    OperatorRegistry :=
  calls.foldl applyCall reg

/-- The resource-changing descriptors one call contributes under key `k`. -/
def changingContrib (k : Resource) : RegCall → List ResourceChangingHandler
  | .resumeC g v p id errors t r b c d lab ann w fn =>
      if k = (⟨g, v, p⟩ : Resource)
      then [resume_handler id errors t r b c d lab ann w fn] else []
  | .createC g v p id errors t r b c lab ann w fn =>
      if k = (⟨g, v, p⟩ : Resource)
      then [create_handler id errors t r b c lab ann w fn] else []
  | .updateC g v p id errors t r b c lab ann w fn =>
      if k = (⟨g, v, p⟩ : Resource)
      then [update_handler id errors t r b c lab ann w fn] else []
  | .deleteC g v p id errors t r b c o lab ann w fn =>
      if k = (⟨g, v, p⟩ : Resource)
      then [delete_handler id errors t r b c o lab ann w fn] else []
  | .fieldC g v p fld id errors t r b c lab ann w fn =>
      if k = (⟨g, v, p⟩ : Resource)
      then [field_handler fld id errors t r b c lab ann w fn] else []
  | _ => []

/-- The resource-watching descriptors one call contributes under key `k`. -/
def watchingContrib (k : Resource) : RegCall → List ResourceWatchingHandler
  | .eventC g v p id lab ann w fn =>
      if k = (⟨g, v, p⟩ : Resource)
      then [event_handler id lab ann w fn] else []
  | _ => []

/-- The activity descriptors one call contributes to the flat list. -/
def activityContrib : RegCall → List ActivityHandler
  | .startupC id errors t r b c fn => [startup_handler id errors t r b c fn]
  | .cleanupC id errors t r b c fn => [cleanup_handler id errors t r b c fn]
  | .loginC id errors t r b c fn => [login_handler id errors t r b c fn]
  | .probeC id errors t r b c fn => [probe_handler id errors t r b c fn]
  | _ => []

theorem applyCall_changing (reg : OperatorRegistry) (c : RegCall)
    (k : Resource) :
    (applyCall reg c).resource_changing_handlers k
      = reg.resource_changing_handlers k ++ changingContrib k c := by
  cases c <;>
    simp [applyCall, changingContrib, startup, cleanup, login, probe,
      resume, create, update, delete, field, event,
      OperatorRegistry.addActivity, OperatorRegistry.addWatching,
      OperatorRegistry.addChanging] <;>
    split <;> simp

theorem applyCall_watching (reg : OperatorRegistry) (c : RegCall)
    (k : Resource) :
    (applyCall reg c).resource_watching_handlers k
      = reg.resource_watching_handlers k ++ watchingContrib k c := by
  cases c <;>
    simp [applyCall, watchingContrib, startup, cleanup, login, probe,
      resume, create, update, delete, field, event,
      OperatorRegistry.addActivity, OperatorRegistry.addWatching,
      OperatorRegistry.addChanging]
  split <;> simp

theorem applyCall_activity (reg : OperatorRegistry) (c : RegCall) :
    (applyCall reg c).activity_handlers
      = reg.activity_handlers ++ activityContrib c := by
  cases c <;>
    simp [applyCall, activityContrib, startup, cleanup, login, probe,
      resume, create, update, delete, field, event,
      OperatorRegistry.addActivity, OperatorRegistry.addWatching,
      OperatorRegistry.addChanging]

theorem applyCalls_changing (calls : List RegCall) (reg : OperatorRegistry)
    (k : Resource) :
    (applyCalls calls reg).resource_changing_handlers k
      = reg.resource_changing_handlers k
          ++ (calls.map (changingContrib k)).flatten := by
  induction calls generalizing reg with
  | nil => simp [applyCalls]
  | cons c cs ih =>
      simp only [applyCalls, List.foldl_cons, List.map_cons, List.flatten_cons]
      simp only [applyCalls] at ih
      rw [ih, applyCall_changing, List.append_assoc]

theorem applyCalls_watching (calls : List RegCall) (reg : OperatorRegistry)
    (k : Resource) :
    (applyCalls calls reg).resource_watching_handlers k
      = reg.resource_watching_handlers k
          ++ (calls.map (watchingContrib k)).flatten := by
  induction calls generalizing reg with
  | nil => simp [applyCalls]
  | cons c cs ih =>
      simp only [applyCalls, List.foldl_cons, List.map_cons, List.flatten_cons]
      simp only [applyCalls] at ih
      rw [ih, applyCall_watching, List.append_assoc]

theorem applyCalls_activity (calls : List RegCall) (reg : OperatorRegistry) :
    (applyCalls calls reg).activity_handlers
      = reg.activity_handlers ++ (calls.map activityContrib).flatten := by
  induction calls generalizing reg with
  | nil => simp [applyCalls]
  | cons c cs ih =>
      simp only [applyCalls, List.foldl_cons, List.map_cons, List.flatten_cons]
      simp only [applyCalls] at ih
      rw [ih, applyCall_activity, List.append_assoc]

/-- Case analysis of `this`: it fails with `LookupError` when the current
descriptor is unset, or when no explicit registry is given and the ambient
sub-registry is unset; otherwise it appends the constructed descriptor to the
resolved target and returns the callback. -/
theorem this_cases (id : Option String) (errors : Option ErrorsMode)
    (timeout : Option Nat) (retries : Option Nat) (backoff : Option Nat)
    (cooldown : Option Nat)
    (registry : Option (List ResourceChangingHandler))
    (labels : Option MetaFilter) (annotations : Option MetaFilter)
    (when_ : Option Fn) (ctx : ExecContext) (fn : Fn) :
    this id errors timeout retries backoff cooldown registry labels
        annotations when_ ctx fn =
      match ctx.handler_var with
      | none => Except.error "LookupError"
      | some ph =>
        match registry with
        | some rl => Except.ok
            (fn, this_handler ph.id id errors timeout retries backoff
                cooldown labels annotations when_ fn,
              rl ++ [this_handler ph.id id errors timeout retries backoff
                cooldown labels annotations when_ fn])
        | none =>
          match ctx.subregistry_var with
          | none => Except.error "LookupError"
          | some rl => Except.ok
              (fn, this_handler ph.id id errors timeout retries backoff
                  cooldown labels annotations when_ fn,
                rl ++ [this_handler ph.id id errors timeout retries backoff
                  cooldown labels annotations when_ fn]) := by
  obtain ⟨hv, sv⟩ := ctx
  cases hv <;> cases registry <;> cases sv <;> rfl

/-- C3: for every call to `delete()`, the constructed descriptor carries
`requires_finalizer = true` when `optional` is unset and `false` when
`optional = true`; and the call appends exactly that descriptor under the
call's resource key. -/
theorem C3_delete_finalizer (g v p : String) (id : Option String)
    (errors : Option ErrorsMode) (t r b c : Option Nat)
    (registry : Option OperatorRegistry) (o : Option Bool)
    (lab ann : Option MetaFilter) (w : Option Fn)
    (reg : OperatorRegistry) (fn : Fn) :
    (delete_handler id errors t r b c none lab ann w fn).requires_finalizer
        = some true
  ∧ (delete_handler id errors t r b c (some true) lab ann w
        fn).requires_finalizer = some false
  ∧ (delete g v p id errors t r b c registry o lab ann w reg
        fn).2.resource_changing_handlers ⟨g, v, p⟩
      = (registry.getD reg).resource_changing_handlers ⟨g, v, p⟩
          ++ [delete_handler id errors t r b c o lab ann w fn] := by
  refine ⟨rfl, rfl, ?_⟩
  simp [delete, OperatorRegistry.addChanging]

/-- C5: whenever both `backoff` and `cooldown` are supplied to a registration
call, the constructed descriptor's effective retry delay is the `backoff`
value, for every descriptor-constructing entry point that accepts both. -/
theorem C5_backoff_precedence (b c : Nat) (id : Option String)
    (errors : Option ErrorsMode) (t r : Option Nat) (d o : Option Bool)
    (lab ann : Option MetaFilter) (w : Option Fn) (fld : FieldSpec)
    (pid : String) (fn : Fn) :
    (startup_handler id errors t r (some b) (some c) fn).effective_backoff
        = some b
  ∧ (cleanup_handler id errors t r (some b) (some c) fn).effective_backoff
        = some b
  ∧ (login_handler id errors t r (some b) (some c) fn).effective_backoff
        = some b
  ∧ (probe_handler id errors t r (some b) (some c) fn).effective_backoff
        = some b
  ∧ (resume_handler id errors t r (some b) (some c) d lab ann w
        fn).effective_backoff = some b
  ∧ (create_handler id errors t r (some b) (some c) lab ann w
        fn).effective_backoff = some b
  ∧ (update_handler id errors t r (some b) (some c) lab ann w
        fn).effective_backoff = some b
  ∧ (delete_handler id errors t r (some b) (some c) o lab ann w
        fn).effective_backoff = some b
  ∧ (field_handler fld id errors t r (some b) (some c) lab ann w
        fn).effective_backoff = some b
  ∧ (this_handler pid id errors t r (some b) (some c) lab ann w
        fn).effective_backoff = some b
  ∧ (startup_handler id errors t r (some 5) (some 3) fn).effective_backoff
        = some 5 :=
  ⟨rfl, rfl, rfl, rfl, rfl, rfl, rfl, rfl, rfl, rfl, rfl⟩

/-- C9: every `event()` call constructs a resource-watching descriptor whose
errors/timeout/retries/backoff/cooldown policy fields are all unset, appends
it to the resource-watching index under the call's key, and leaves the
resource-changing index (at every key) and the activity list untouched. -/
theorem C9_event_descriptor (g v p : String) (id : Option String)
    (registry : Option OperatorRegistry) (lab ann : Option MetaFilter)
    (w : Option Fn) (reg : OperatorRegistry) (fn : Fn) :
    (event_handler id lab ann w fn).errors = none
  ∧ (event_handler id lab ann w fn).timeout = none
  ∧ (event_handler id lab ann w fn).retries = none
  ∧ (event_handler id lab ann w fn).backoff = none
  ∧ (event_handler id lab ann w fn).cooldown = none
  ∧ (event g v p id registry lab ann w reg
        fn).2.resource_watching_handlers ⟨g, v, p⟩
      = (registry.getD reg).resource_watching_handlers ⟨g, v, p⟩
          ++ [event_handler id lab ann w fn]
  ∧ (∀ k, (event g v p id registry lab ann w reg
        fn).2.resource_changing_handlers k
      = (registry.getD reg).resource_changing_handlers k)
  ∧ (event g v p id registry lab ann w reg fn).2.activity_handlers
      = (registry.getD reg).activity_handlers := by
  refine ⟨rfl, rfl, rfl, rfl, rfl, ?_, fun k => rfl, rfl⟩
  simp [event, OperatorRegistry.addWatching]

/-- C10: `register(fn, ...)` is exactly the application of the `this(...)`
decorator (with the same options) to `fn`: same result callback, same
constructed descriptor, same updated target, same failures. -/
theorem C10_register_equals_this (id : Option String)
    (errors : Option ErrorsMode) (t r b c : Option Nat)
    (registry : Option (List ResourceChangingHandler))
    (lab ann : Option MetaFilter) (w : Option Fn) (ctx : ExecContext)
    (fn : Fn) :
    register fn id errors t r b c registry lab ann w ctx
      = this id errors t r b c registry lab ann w ctx fn := rfl

/-- C2: registering `create("acme.io","v1","widgets")` on a function named
`make` and then `field("acme.io","v1","widgets","spec.size")` on a function
named `resize` (no explicit ids) yields, under key
`("acme.io","v1","widgets")`, exactly two changing descriptors, in that
order, with ids `"make"` and `"resize/spec.size"`, reason `create` on the
first and unset on the second. -/
theorem C2_create_then_field :
    ((field "acme.io" "v1" "widgets" (FieldSpec.str "spec.size")
          none none none none none none none none none none
          (create "acme.io" "v1" "widgets"
            none none none none none none none none none none
            OperatorRegistry.empty ⟨"make"⟩).2
          ⟨"resize"⟩).2.resource_changing_handlers
        ⟨"acme.io", "v1", "widgets"⟩).map
        (fun h => (h.id, h.reason))
      = [("make", some Reason.create), ("resize/spec.size", none)] := by
  decide

/-- C6: for every sequence of registration calls (through any mix of the
static entry points) and every resource-type key, both per-key indices and
the flat activity list contain exactly the previously present descriptors
followed by the contributed descriptors in registration-call order:
registration only ever appends, never removes or edits. -/
theorem C6_registration_order (calls : List RegCall) (reg : OperatorRegistry)
    (k : Resource) :
    (applyCalls calls reg).resource_changing_handlers k
        = reg.resource_changing_handlers k
            ++ (calls.map (changingContrib k)).flatten
  ∧ (applyCalls calls reg).resource_watching_handlers k
        = reg.resource_watching_handlers k
            ++ (calls.map (watchingContrib k)).flatten
  ∧ (applyCalls calls reg).activity_handlers
        = reg.activity_handlers ++ (calls.map activityContrib).flatten :=
  ⟨applyCalls_changing calls reg k, applyCalls_watching calls reg k,
    applyCalls_activity calls reg⟩

/-- C4: a descriptor registered dynamically while a parent descriptor is
being executed gets an id that begins with the parent's id followed by the
`/` separator (it is exactly `parent-id ++ "/" ++ base`), and two such
registrations with the same explicit id (or callbacks of the same name) and
the same parent produce equal ids. -/
theorem C4_subhandler_id_hierarchy (id : Option String)
    (errors : Option ErrorsMode) (t r b c : Option Nat)
    (registry : Option (List ResourceChangingHandler))
    (lab ann : Option MetaFilter) (w : Option Fn) (ctx : ExecContext)
    (ph : ResourceChangingHandler) (fn : Fn)
    (hph : ctx.handler_var = some ph) (hne : ph.id ≠ "") :
    (∀ out, this id errors t r b c registry lab ann w ctx fn = Except.ok out →
        out.2.1.id = ph.id ++ "/" ++ id.getD fn.name
      ∧ ∃ rest, out.2.1.id = ph.id ++ "/" ++ rest)
  ∧ (∀ fn2 : Fn, fn2.name = fn.name →
      (this_handler ph.id id errors t r b c lab ann w fn2).id
        = (this_handler ph.id id errors t r b c lab ann w fn).id) := by
  have hid : ∀ g : Fn, g.name = fn.name →
      (this_handler ph.id id errors t r b c lab ann w g).id
        = ph.id ++ "/" ++ id.getD fn.name := by
    intro g hg
    simp only [this_handler, generate_id, hg]
    cases id <;> simp [hne]
  refine ⟨?_, ?_⟩
  · intro out hout
    rw [this_cases] at hout
    rw [hph] at hout
    have hhdl : out.2.1 = this_handler ph.id id errors t r b c lab ann w fn := by
      cases registry with
      | some rl =>
          simp only [Except.ok.injEq] at hout
          rw [← hout]
      | none =>
          cases hsv : ctx.subregistry_var with
          | none => rw [hsv] at hout; exact absurd hout (by simp)
          | some rl =>
              rw [hsv] at hout
              simp only [Except.ok.injEq] at hout
              rw [← hout]
    rw [hhdl, hid fn rfl]
    exact ⟨rfl, id.getD fn.name, rfl⟩
  · intro fn2 h2
    rw [hid fn2 h2, hid fn rfl]

/-- Closed witness for C4: a concrete parent descriptor with id `"par"`, a
concrete context, and a concrete dynamic registration whose produced id is
`"par/task1"`. -/
theorem C4_witness :
    (ExecContext.mk
        (some (create_handler none none none none none none none none none
          ⟨"par"⟩)) (some [])).handler_var
      = some (create_handler none none none none none none none none none
          ⟨"par"⟩)
  ∧ (create_handler none none none none none none none none none
        ⟨"par"⟩).id ≠ ""
  ∧ ((∀ out, this (some "task1") none none none none none none none none none
        (ExecContext.mk
          (some (create_handler none none none none none none none none none
            ⟨"par"⟩)) (some []))
        ⟨"sub"⟩ = Except.ok out →
        out.2.1.id
            = (create_handler none none none none none none none none none
                ⟨"par"⟩).id ++ "/" ++ (some "task1").getD (Fn.mk "sub").name
      ∧ ∃ rest, out.2.1.id
            = (create_handler none none none none none none none none none
                ⟨"par"⟩).id ++ "/" ++ rest)
    ∧ (∀ fn2 : Fn, fn2.name = (Fn.mk "sub").name →
        (this_handler
            (create_handler none none none none none none none none none
              ⟨"par"⟩).id
            (some "task1") none none none none none none none none fn2).id
          = (this_handler
              (create_handler none none none none none none none none none
                ⟨"par"⟩).id
              (some "task1") none none none none none none none none
              (Fn.mk "sub")).id)) :=
  ⟨rfl, by decide,
    C4_subhandler_id_hierarchy (some "task1") none none none none none none
      none none none _ _ ⟨"sub"⟩ rfl (by decide)⟩

/-- C8: every registration entry point returns the exact callback it was
given, unchanged, for every combination of options; for the dynamic entry
points (`this`/`register`) this holds whenever the call succeeds. -/
theorem C8_returns_original_callback (id : Option String)
    (errors : Option ErrorsMode) (t r b c : Option Nat)
    (registry : Option OperatorRegistry)
    (subreg : Option (List ResourceChangingHandler))
    (g v p : String) (d o : Option Bool) (lab ann : Option MetaFilter)
    (w : Option Fn) (fld : FieldSpec) (ctx : ExecContext)
    (reg : OperatorRegistry) (fn : Fn) :
    (startup id errors t r b c registry reg fn).1 = fn
  ∧ (cleanup id errors t r b c registry reg fn).1 = fn
  ∧ (login id errors t r b c registry reg fn).1 = fn
  ∧ (probe id errors t r b c registry reg fn).1 = fn
  ∧ (resume g v p id errors t r b c registry d lab ann w reg fn).1 = fn
  ∧ (create g v p id errors t r b c registry lab ann w reg fn).1 = fn
  ∧ (update g v p id errors t r b c registry lab ann w reg fn).1 = fn
  ∧ (delete g v p id errors t r b c registry o lab ann w reg fn).1 = fn
  ∧ (field g v p fld id errors t r b c registry lab ann w reg fn).1 = fn
  ∧ (event g v p id registry lab ann w reg fn).1 = fn
  ∧ (∀ out, this id errors t r b c subreg lab ann w ctx fn = Except.ok out →
      out.1 = fn)
  ∧ (∀ out, register fn id errors t r b c subreg lab ann w ctx
        = Except.ok out → out.1 = fn) := by
  have hthis : ∀ out,
      this id errors t r b c subreg lab ann w ctx fn = Except.ok out →
      out.1 = fn := by
    intro out hout
    rw [this_cases] at hout
    cases hhv : ctx.handler_var with
    | none => rw [hhv] at hout; exact absurd hout (by simp)
    | some ph =>
        rw [hhv] at hout
        cases subreg with
        | some rl =>
            simp only [Except.ok.injEq] at hout
            rw [← hout]
        | none =>
            cases hsv : ctx.subregistry_var with
            | none => rw [hsv] at hout; exact absurd hout (by simp)
            | some rl =>
                rw [hsv] at hout
                simp only [Except.ok.injEq] at hout
                rw [← hout]
  exact ⟨rfl, rfl, rfl, rfl, rfl, rfl, rfl, rfl, rfl, rfl, hthis, hthis⟩

/-- Closed witness for C8: all twelve entry points evaluated at concrete
arguments, including a successful dynamic registration. -/
theorem C8_witness :
    (startup none none none none none none none OperatorRegistry.empty
        ⟨"f"⟩).1 = Fn.mk "f"
  ∧ (cleanup none none none none none none none OperatorRegistry.empty
        ⟨"f"⟩).1 = Fn.mk "f"
  ∧ (login none none none none none none none OperatorRegistry.empty
        ⟨"f"⟩).1 = Fn.mk "f"
  ∧ (probe none none none none none none none OperatorRegistry.empty
        ⟨"f"⟩).1 = Fn.mk "f"
  ∧ (resume "g" "v1" "ps" none none none none none none none none none none
        none OperatorRegistry.empty ⟨"f"⟩).1 = Fn.mk "f"
  ∧ (create "g" "v1" "ps" none none none none none none none none none none
        OperatorRegistry.empty ⟨"f"⟩).1 = Fn.mk "f"
  ∧ (update "g" "v1" "ps" none none none none none none none none none none
        OperatorRegistry.empty ⟨"f"⟩).1 = Fn.mk "f"
  ∧ (delete "g" "v1" "ps" none none none none none none none none none none
        none OperatorRegistry.empty ⟨"f"⟩).1 = Fn.mk "f"
  ∧ (field "g" "v1" "ps" FieldSpec.nothing none none none none none none none
        none none none OperatorRegistry.empty ⟨"f"⟩).1 = Fn.mk "f"
  ∧ (event "g" "v1" "ps" none none none none none OperatorRegistry.empty
        ⟨"f"⟩).1 = Fn.mk "f"
  ∧ (∀ out, this none none none none none none (some []) none none none
        (ExecContext.mk
          (some (create_handler none none none none none none none none none
            ⟨"par"⟩)) none)
        ⟨"f"⟩ = Except.ok out → out.1 = Fn.mk "f")
  ∧ (∀ out, register (Fn.mk "f") none none none none none none (some [])
        none none none
        (ExecContext.mk
          (some (create_handler none none none none none none none none none
            ⟨"par"⟩)) none)
        = Except.ok out → out.1 = Fn.mk "f") := by
  have h := C8_returns_original_callback none none none none none none none
    (some []) "g" "v1" "ps" none none none none none FieldSpec.nothing
    (ExecContext.mk
      (some (create_handler none none none none none none none none none
        ⟨"par"⟩)) none)
    OperatorRegistry.empty ⟨"f"⟩
  exact h

/-- C1 counterexample: registering a field handler with an empty field-path
does not raise and does not stop: the call proceeds and appends a descriptor
(with id `"fh"` and no field-path) to the resource-changing index, refuting
the claim that every such call fails with no descriptor appended anywhere. -/
theorem C1_counterexample :
    ((field "g" "v1" "things" (FieldSpec.list []) none none none none none
        none none none none none OperatorRegistry.empty
        ⟨"fh"⟩).2.resource_changing_handlers ⟨"g", "v1", "things"⟩).map
        (fun h => (h.id, h.field))
      = [("fh", none)] := by decide

/-- C1 (amended): invoking the dynamic sub-registration entry points
(`this`/`register`) outside any execution context (no current descriptor, no
sub-registry) raises immediately and synchronously with nothing appended;
`field()` with an empty field-path, however, does not raise: it proceeds and
appends a descriptor whose field-path is unset and whose id carries no
suffix. -/
theorem C1_amended_thm (id : Option String) (errors : Option ErrorsMode)
    (t r b c : Option Nat) (lab ann : Option MetaFilter) (w : Option Fn)
    (ctx : ExecContext) (fn : Fn)
    (hhv : ctx.handler_var = none) (_hsv : ctx.subregistry_var = none) :
    (∀ registry, this id errors t r b c registry lab ann w ctx fn
        = Except.error "LookupError")
  ∧ (∀ registry, register fn id errors t r b c registry lab ann w ctx
        = Except.error "LookupError")
  ∧ (∀ (g v p : String) (fld : FieldSpec)
        (registry : Option OperatorRegistry) (reg : OperatorRegistry)
        (fn2 : Fn), parse_field fld = [] →
        (field g v p fld id errors t r b c registry lab ann w reg
            fn2).2.resource_changing_handlers ⟨g, v, p⟩
          = (registry.getD reg).resource_changing_handlers ⟨g, v, p⟩
              ++ [field_handler fld id errors t r b c lab ann w fn2]
      ∧ (field_handler fld id errors t r b c lab ann w fn2).field = none
      ∧ (field_handler fld id errors t r b c lab ann w fn2).id
          = id.getD fn2.name) := by
  have hthis : ∀ registry,
      this id errors t r b c registry lab ann w ctx fn
        = Except.error "LookupError" := by
    intro registry
    rw [this_cases, hhv]
  refine ⟨hthis, fun registry => hthis registry, ?_⟩
  intro g v p fld registry reg fn2 hfld
  refine ⟨by simp [field, OperatorRegistry.addChanging], ?_, ?_⟩
  · simp [field_handler, hfld]
  · simp only [field_handler, hfld, generate_id, String.intercalate]
    cases id <;> simp

/-- Closed witness for C1 (amended): the empty context makes `this` and
`register` fail with `LookupError`, and a concrete empty-field `field()`
registration appends its descriptor with no field-path and an unsuffixed
id. -/
theorem C1_witness :
    (ExecContext.mk none none).handler_var = none
  ∧ (ExecContext.mk none none).subregistry_var = none
  ∧ this none none none none none none none none none none
      (ExecContext.mk none none) ⟨"f"⟩ = Except.error "LookupError"
  ∧ register (Fn.mk "f") none none none none none none none none none none
      (ExecContext.mk none none) = Except.error "LookupError"
  ∧ (field "g" "v1" "ps" (FieldSpec.list []) none none none none none none
        none none none none OperatorRegistry.empty
        ⟨"f"⟩).2.resource_changing_handlers ⟨"g", "v1", "ps"⟩
      = ((none : Option OperatorRegistry).getD
          OperatorRegistry.empty).resource_changing_handlers ⟨"g", "v1", "ps"⟩
          ++ [field_handler (FieldSpec.list []) none none none none none none
              none none none ⟨"f"⟩]
  ∧ (field_handler (FieldSpec.list []) none none none none none none none
      none none ⟨"f"⟩).field = none
  ∧ (field_handler (FieldSpec.list []) none none none none none none none
      none none ⟨"f"⟩).id = (none : Option String).getD (Fn.mk "f").name := by
  have h := C1_amended_thm none none none none none none none none none
    (ExecContext.mk none none) ⟨"f"⟩ rfl rfl
  have h3 := h.2.2 "g" "v1" "ps" (FieldSpec.list []) none
    OperatorRegistry.empty ⟨"f"⟩ rfl
  exact ⟨rfl, rfl, h.1 none, h.2.1 none, h3.1, h3.2.1, h3.2.2⟩

/-- C7 counterexample: a labels mapping with two entries using the old
absence convention (value `None`) makes one registration call emit two
deprecation warnings, not exactly one; the registration still proceeds and
appends its descriptor. -/
theorem C7_counterexample :
    warn_deprecated_filters_count (some [("a", none), ("b", none)]) none ≠ 1
  ∧ warn_deprecated_filters_count (some [("a", none), ("b", none)]) none = 2
  ∧ ((create "g" "v1" "ps" none none none none none none none
        (some [("a", none), ("b", none)]) none none OperatorRegistry.empty
        ⟨"f"⟩).2.resource_changing_handlers ⟨"g", "v1", "ps"⟩).length = 1 :=
  ⟨by decide, by decide, by decide⟩

/-- C7 (amended): a registration call whose labels or annotations mapping
contains at least one entry using the old absence convention emits at least
one non-fatal deprecation warning (precisely one per offending entry, as
`warn_deprecated_filters_count` counts), and the registration always
proceeds to append the descriptor: the warning never aborts registration. -/
theorem C7_amended_thm (lab ann : Option MetaFilter)
    (h : ∃ k : String, ((k, (none : Option String)) ∈ lab.getD [])
        ∨ ((k, (none : Option String)) ∈ ann.getD [])) :
    1 ≤ warn_deprecated_filters_count lab ann
  ∧ ∀ (g v p : String) (id : Option String) (errors : Option ErrorsMode)
      (t r b c : Option Nat) (registry : Option OperatorRegistry)
      (w : Option Fn) (reg : OperatorRegistry) (fn : Fn),
      ((create g v p id errors t r b c registry lab ann w reg
          fn).2.resource_changing_handlers ⟨g, v, p⟩).length
        = ((registry.getD reg).resource_changing_handlers
            ⟨g, v, p⟩).length + 1 := by
  constructor
  · obtain ⟨k, hk⟩ := h
    cases hk with
    | inl hmem =>
        cases lab with
        | none => simp at hmem
        | some m =>
            have h1 : (k, (none : Option String))
                ∈ m.filter (fun kv => kv.2 = none) :=
              List.mem_filter.mpr ⟨hmem, by simp⟩
            have h2 := List.length_pos_of_mem h1
            cases ann <;> (simp [warn_deprecated_filters_count]; omega)
    | inr hmem =>
        cases ann with
        | none => simp at hmem
        | some m =>
            have h1 : (k, (none : Option String))
                ∈ m.filter (fun kv => kv.2 = none) :=
              List.mem_filter.mpr ⟨hmem, by simp⟩
            have h2 := List.length_pos_of_mem h1
            cases lab <;> (simp [warn_deprecated_filters_count]; omega)
  · intro g v p id errors t r b c registry w reg fn
    simp [create, OperatorRegistry.addChanging]

/-- Closed witness for C7 (amended): one offending label entry yields at
least one warning and the registration appends its descriptor. -/
theorem C7_witness :
    (∃ k : String, ((k, (none : Option String))
          ∈ (some [("x", (none : Option String))]
              : Option MetaFilter).getD [])
        ∨ ((k, (none : Option String)) ∈ (none : Option MetaFilter).getD []))
  ∧ 1 ≤ warn_deprecated_filters_count (some [("x", none)]) none
  ∧ ((create "g" "v1" "ps" none none none none none none none
        (some [("x", none)]) none none OperatorRegistry.empty
        ⟨"f"⟩).2.resource_changing_handlers ⟨"g", "v1", "ps"⟩).length
      = (((none : Option OperatorRegistry).getD
          OperatorRegistry.empty).resource_changing_handlers
            ⟨"g", "v1", "ps"⟩).length + 1 := by
  have hx : ∃ k : String, ((k, (none : Option String))
        ∈ (some [("x", (none : Option String))] : Option MetaFilter).getD [])
      ∨ ((k, (none : Option String)) ∈ (none : Option MetaFilter).getD []) :=
    ⟨"x", Or.inl (by simp)⟩
  have h := C7_amended_thm (some [("x", none)]) none hx
  exact ⟨hx, h.1, h.2 "g" "v1" "ps" none none none none none none none none
    OperatorRegistry.empty ⟨"f"⟩⟩

end Kopf
